import Mathlib

/-!
Shallow embedding of `src/prototype.py`, a four-stage pipeline that sends a
PDF mathematics paper through a sequence of chat-completion calls and caches
each stage's output as a text file in an output directory.

Modelling choices:
* A page image is modelled by the base64 encoding of its PNG payload
  (a `String`); `process_image_with_gpt4o` turns it into a data URL exactly
  as the source does.
* The OpenAI client is modelled by an oracle `Oracle : ChatRequest → Option String`;
  `none` models a raised exception (`ServiceError`), `some s` models a reply
  whose `choices[0].message.content` is `s`.
* A `ChatRequest` records the arguments of one `client.chat.completions.create`
  call: the model name, the text content of the single user message, the
  optional image data URL attached to that message, and the sampling
  temperature.
* The filesystem visible to the program is the output directory: a flag for
  directory existence plus an association list of (filename, contents); a
  `save_result` prepends, so `List.lookup` sees the most recent write.
* `convert_from_path pdf` is modelled by the input `Option (List String)`:
  `none` models `DocumentError` (missing/invalid PDF), `some pages` the
  ordered page list.
* Each fallible computation returns its `Except` result together with the
  list of chat requests it issued, in order of issue.
-/

namespace Prototype

instance {ε α : Type} [DecidableEq ε] [DecidableEq α] : DecidableEq (Except ε α) :=
  fun a b =>
    match a, b with
    | .error e, .error f =>
      if h : e = f then isTrue (by rw [h])
      else isFalse (by intro hh; cases hh; exact h rfl)
    | .ok x, .ok y =>
      if h : x = y then isTrue (by rw [h])
      else isFalse (by intro hh; cases hh; exact h rfl)
    | .error _, .ok _ => isFalse (by intro h; cases h)
    | .ok _, .error _ => isFalse (by intro h; cases h)

inductive PipeError where
  | documentError
  | serviceError
deriving DecidableEq, Repr

/-- One `client.chat.completions.create` call's arguments. -/
structure ChatRequest where
  model : String
  promptText : String
  imageUrl : Option String
  temperature : ℚ
deriving DecidableEq, Repr

/-- The model client: a deterministic respondent; `none` = `ServiceError`. -/
abbrev Oracle := ChatRequest → Option String

/-- The output directory: whether it exists, and its files as an
association list (most recent write first). -/
structure FS where
  dirExists : Bool
  files : List (String × String)
deriving DecidableEq, Repr

/-- Fixed user-message text of the per-page extraction call (source line 46). -/
def page_prompt : String :=
  "以下の画像に含まれる数学的な記述や定理の要素を抽出してください。"

/-- Text preceding the paper body in the stage-2 prompt (source lines 62-63). -/
def theorem_prompt_pre : String :=
  "以下の数学論文の本文から、主定理とその中で用いられている主要な用語の定義を抽出してください。\n\n【論文本文】\n"

/-- Text following the paper body in the stage-2 prompt (source lines 63-64). -/
def theorem_prompt_suf : String :=
  "\n\n抽出結果は、主定理の記述と、用語一覧・その定義の形式で示してください。"

/-- Text preceding the theorem in the stage-3 prompt (source lines 78-80). -/
def prove_prompt_pre : String :=
  "以下の定理について、詳細な証明を示してください。\n\n【定理】\n"

/-- Text preceding the theorem in the stage-4 prompt (source lines 95-97). -/
def validate_prompt_pre : String :=
  "以下の定理とその証明について、概要レベルで正しいかどうか、また主要な論点が網羅されているか評価してください。\n\n【定理】\n"

/-- Text between theorem and proof in the stage-4 prompt (source lines 97-98). -/
def validate_prompt_mid : String :=
  "\n\n【証明】\n"

/-- Text following the proof in the stage-4 prompt (source lines 98-99). -/
def validate_prompt_suf : String :=
  "\n\n評価とともに、必要ならば改善点も指摘してください。"

/-- The request issued for one page image by `process_image_with_gpt4o`
(source lines 33-52): the PNG payload is base64-encoded into a data URL and
sent together with the fixed instruction, at temperature 0. -/
def page_request (image_base64 : String) : ChatRequest :=
  { model := "gpt-4o"
    promptText := page_prompt
    imageUrl := some ("data:image/png;base64," ++ image_base64)
    temperature := 0 }

/-- The request issued by `extract_main_theorem` (source lines 61-70). -/
def theorem_request (full_text : String) : ChatRequest :=
  { model := "gpt-4o"
    promptText := theorem_prompt_pre ++ full_text ++ theorem_prompt_suf
    imageUrl := none
    temperature := 0 }

/-- The request issued by `prove_theorem` (source lines 78-86). -/
def prove_request (main_theorem_text : String) : ChatRequest :=
  { model := "gpt-4o"
    promptText := prove_prompt_pre ++ main_theorem_text
    imageUrl := none
    temperature := 0 }

/-- The request issued by `validate_proof` (source lines 95-105). -/
def validate_request (main_theorem_text proof_text : String) : ChatRequest :=
  { model := "gpt-4o"
    promptText :=
      validate_prompt_pre ++ main_theorem_text ++ validate_prompt_mid
        ++ proof_text ++ validate_prompt_suf
    imageUrl := none
    temperature := 0 }

/-- `process_image_with_gpt4o(image, client)` (source lines 26-53): build the
data-URL request for the page image and query the client; returns the request
issued together with the client's answer. -/
def process_image_with_gpt4o (image : String) (client : Oracle) :
    ChatRequest × Option String :=
  (page_request image, client (page_request image))

/-- The page loop of `extract_text_via_gpt4o` (source lines 18-23):
`full_text += page_text + "\n"` over the pages in order; a failing client
call aborts with `ServiceError` after having issued the request. -/
def extract_pages (client : Oracle) : List String → Except PipeError String × List ChatRequest
  | [] => (.ok "", [])
  | image :: rest =>
    match process_image_with_gpt4o image client with
    | (req, none) => (.error .serviceError, [req])
    | (req, some page_text) =>
      match extract_pages client rest with
      | (.error e, tr) => (.error e, req :: tr)
      | (.ok rest_text, tr) => (.ok (page_text ++ "\n" ++ rest_text), req :: tr)

/-- `extract_text_via_gpt4o(pdf_path, client)` (source lines 12-23):
`convert_from_path` (modelled by the `Option`) rasterizes the PDF or raises
`DocumentError`; then each page is processed in order. -/
def extract_text_via_gpt4o (pdf : Option (List String)) (client : Oracle) :
    Except PipeError String × List ChatRequest :=
  match pdf with
  | none => (.error .documentError, [])
  | some images => extract_pages client images

/-- `extract_main_theorem(full_text, client)` (source lines 56-71). -/
def extract_main_theorem (full_text : String) (client : Oracle) :
    Except PipeError String × List ChatRequest :=
  match client (theorem_request full_text) with
  | none => (.error .serviceError, [theorem_request full_text])
  | some content => (.ok content, [theorem_request full_text])

/-- `prove_theorem(main_theorem_text, client)` (source lines 74-87). -/
def prove_theorem (main_theorem_text : String) (client : Oracle) :
    Except PipeError String × List ChatRequest :=
  match client (prove_request main_theorem_text) with
  | none => (.error .serviceError, [prove_request main_theorem_text])
  | some content => (.ok content, [prove_request main_theorem_text])

/-- `validate_proof(main_theorem_text, proof_text, client)` (source lines 90-106). -/
def validate_proof (main_theorem_text proof_text : String) (client : Oracle) :
    Except PipeError String × List ChatRequest :=
  match client (validate_request main_theorem_text proof_text) with
  | none => (.error .serviceError, [validate_request main_theorem_text proof_text])
  | some content => (.ok content, [validate_request main_theorem_text proof_text])

/-- `save_result(output_dir, filename, text)` (source lines 109-114): write
the file (a prepend; `List.lookup` sees the newest entry). -/
def save_result (fs : FS) (filename : String) (text : String) : FS :=
  { fs with files := (filename, text) :: fs.files }

/-- `load_result(output_dir, filename)` (source lines 117-121): read the
file's contents. -/
def load_result (fs : FS) (filename : String) : Option String :=
  fs.files.lookup filename

/-- The fixed stage-1 result filename (source line 143). -/
def extracted_text_file : String := "extracted_text.txt"

/-- The fixed stage-2 result filename (source line 153). -/
def main_theorem_file : String := "main_theorem.txt"

/-- The fixed stage-3 result filename (source line 163). -/
def proof_file : String := "proof.txt"

/-- The fixed stage-4 result filename (source line 173). -/
def validation_file : String := "validation.txt"

/-- The `os.makedirs` block of `main` (source lines 136-138): create the
output directory if absent. -/
def ensure_dir (fs : FS) : FS :=
  if fs.dirExists then fs else { fs with dirExists := true }

/-- One cached stage block of `main` (the pattern repeated at source lines
143-150, 153-160, 163-170, 173-180): if the stage's file exists, load and
return it without invoking the computation (empty request trace); otherwise
run the computation, and on success save its result.  Returns the stage
result, the requests issued, and the filesystem afterwards. -/
def run_stage (fs : FS) (filename : String)
    (compute : Except PipeError String × List ChatRequest) :
    Except PipeError String × List ChatRequest × FS :=
  match load_result fs filename with
  | some cached => (.ok cached, [], fs)
  | none =>
    match compute with
    | (.error e, tr) => (.error e, tr, fs)
    | (.ok text, tr) => (.ok text, tr, save_result fs filename text)

/-- Everything observable about one run of `main`: the final state of the
output directory, the chat requests issued in order, and either the error
that aborted the run or the four results printed at the end. -/
structure RunOutput where
  fs : FS
  trace : List ChatRequest
  result : Except PipeError (String × String × String × String)
deriving DecidableEq, Repr

/-- `main()` (source lines 126-190): create the output directory if needed,
then run the four cached stages in order, aborting on the first error; on
success emit the four stage results. -/
def main (pdf : Option (List String)) (client : Oracle) (fs0 : FS) : RunOutput :=
  let fs := ensure_dir fs0
  match run_stage fs extracted_text_file (extract_text_via_gpt4o pdf client) with
  | (.error e, tr1, fs1) => ⟨fs1, tr1, .error e⟩
  | (.ok extracted_text, tr1, fs1) =>
    match run_stage fs1 main_theorem_file (extract_main_theorem extracted_text client) with
    | (.error e, tr2, fs2) => ⟨fs2, tr1 ++ tr2, .error e⟩
    | (.ok main_theorem, tr2, fs2) =>
      match run_stage fs2 proof_file (prove_theorem main_theorem client) with
      | (.error e, tr3, fs3) => ⟨fs3, tr1 ++ tr2 ++ tr3, .error e⟩
      | (.ok proof, tr3, fs3) =>
        match run_stage fs3 validation_file (validate_proof main_theorem proof client) with
        | (.error e, tr4, fs4) => ⟨fs4, tr1 ++ tr2 ++ tr3 ++ tr4, .error e⟩
        | (.ok validation, tr4, fs4) =>
          ⟨fs4, tr1 ++ tr2 ++ tr3 ++ tr4,
            .ok (extracted_text, main_theorem, proof, validation)⟩

/-- The model-client stub of the end-to-end scenario: fixed replies
"T1", "MAIN", "PROOF", "OK" at the four call sites reached from a one-page
document whose page image is "IMG1". -/
def stub_client : Oracle := fun r =>
  if r = page_request "IMG1" then some "T1"
  else if r = theorem_request "T1\n" then some "MAIN"
  else if r = prove_request "MAIN" then some "PROOF"
  else if r = validate_request "MAIN" "PROOF" then some "OK"
  else none

lemma ensure_dir_files (fs : FS) : (ensure_dir fs).files = fs.files := by
  by_cases h : fs.dirExists <;> simp [ensure_dir, h]

lemma ensure_dir_load (fs : FS) (f : String) :
    load_result (ensure_dir fs) f = load_result fs f := by
  simp [load_result, ensure_dir_files]

lemma run_stage_cached {fs : FS} {f c : String} (hc : load_result fs f = some c)
    (comp : Except PipeError String × List ChatRequest) :
    run_stage fs f comp = (.ok c, [], fs) := by
  simp [run_stage, hc]

lemma run_stage_not_cached {fs : FS} {f : String} (hn : load_result fs f = none)
    (comp : Except PipeError String × List ChatRequest) :
    run_stage fs f comp =
      (match comp with
       | (.error e, tr) => (.error e, tr, fs)
       | (.ok text, tr) => (.ok text, tr, save_result fs f text)) := by
  simp [run_stage, hn]

/-- C1: for every output directory in which all four stage files already
exist, a run makes no call to the generation capability, emits exactly the
current contents of those four files, and leaves the directory's files
unchanged. -/
theorem rerun_with_full_cache_makes_no_call
    (pdf : Option (List String)) (client : Oracle) (fs0 : FS)
    (c1 c2 c3 c4 : String)
    (h1 : load_result fs0 extracted_text_file = some c1)
    (h2 : load_result fs0 main_theorem_file = some c2)
    (h3 : load_result fs0 proof_file = some c3)
    (h4 : load_result fs0 validation_file = some c4) :
    (main pdf client fs0).trace = [] ∧
    (main pdf client fs0).result = .ok (c1, c2, c3, c4) ∧
    (main pdf client fs0).fs.files = fs0.files := by
  simp only [main,
    run_stage_cached ((ensure_dir_load fs0 _).trans h1),
    run_stage_cached ((ensure_dir_load fs0 _).trans h2),
    run_stage_cached ((ensure_dir_load fs0 _).trans h3),
    run_stage_cached ((ensure_dir_load fs0 _).trans h4)]
  simp [ensure_dir_files]

/-- Witness for C1: a directory holding all four stage files, run with a
client that fails on every request and a missing document. -/
theorem rerun_with_full_cache_makes_no_call_witness :
    (load_result ⟨true, [(extracted_text_file, "A"), (main_theorem_file, "B"),
        (proof_file, "C"), (validation_file, "D")]⟩ extracted_text_file = some "A" ∧
     load_result ⟨true, [(extracted_text_file, "A"), (main_theorem_file, "B"),
        (proof_file, "C"), (validation_file, "D")]⟩ main_theorem_file = some "B" ∧
     load_result ⟨true, [(extracted_text_file, "A"), (main_theorem_file, "B"),
        (proof_file, "C"), (validation_file, "D")]⟩ proof_file = some "C" ∧
     load_result ⟨true, [(extracted_text_file, "A"), (main_theorem_file, "B"),
        (proof_file, "C"), (validation_file, "D")]⟩ validation_file = some "D") ∧
    ((main none (fun _ => none) ⟨true, [(extracted_text_file, "A"),
        (main_theorem_file, "B"), (proof_file, "C"),
        (validation_file, "D")]⟩).trace = [] ∧
     (main none (fun _ => none) ⟨true, [(extracted_text_file, "A"),
        (main_theorem_file, "B"), (proof_file, "C"),
        (validation_file, "D")]⟩).result = .ok ("A", "B", "C", "D") ∧
     (main none (fun _ => none) ⟨true, [(extracted_text_file, "A"),
        (main_theorem_file, "B"), (proof_file, "C"),
        (validation_file, "D")]⟩).fs.files = [(extracted_text_file, "A"),
        (main_theorem_file, "B"), (proof_file, "C"), (validation_file, "D")]) :=
  ⟨⟨by decide, by decide, by decide, by decide⟩,
   rerun_with_full_cache_makes_no_call none (fun _ => none) _ "A" "B" "C" "D"
     (by decide) (by decide) (by decide) (by decide)⟩

/-- C6: for a one-page document and the fixed-reply client stub, a run
against an empty output directory creates exactly the four stage files with
contents "T1\n", "MAIN", "PROOF", "OK", issues the four requests in stage
order, and emits the four results. -/
theorem end_to_end_one_page_scenario :
    main (some ["IMG1"]) stub_client ⟨true, []⟩ =
      ⟨⟨true, [(validation_file, "OK"), (proof_file, "PROOF"),
               (main_theorem_file, "MAIN"), (extracted_text_file, "T1\n")]⟩,
       [page_request "IMG1", theorem_request "T1\n", prove_request "MAIN",
        validate_request "MAIN" "PROOF"],
       .ok ("T1\n", "MAIN", "PROOF", "OK")⟩ := by decide

/-- C9: with a nonexistent input document and an absent output directory,
the run creates the output directory (empty) as a side effect and then
aborts with `DocumentError`, issuing no request. -/
theorem missing_document_still_creates_output_dir (client : Oracle) :
    main none client ⟨false, []⟩ = ⟨⟨true, []⟩, [], .error .documentError⟩ := rfl

/-- C7: for a nonexistent (or invalid) input document and an output
directory with no cached extraction file, the run aborts with
`DocumentError` before any file is written and before any request is
issued. -/
theorem missing_document_aborts_before_any_write
    (client : Oracle) (fs0 : FS)
    (h : load_result fs0 extracted_text_file = none) :
    (main none client fs0).result = .error .documentError ∧
    (main none client fs0).fs.files = fs0.files ∧
    (main none client fs0).trace = [] := by
  simp only [main, run_stage_not_cached ((ensure_dir_load fs0 _).trans h)]
  simp [extract_text_via_gpt4o, ensure_dir_files]

/-- Witness for C7: a missing document run against a directory holding no
extraction file. -/
theorem missing_document_aborts_before_any_write_witness :
    (load_result ⟨true, [(proof_file, "C")]⟩ extracted_text_file = none) ∧
    ((main none (fun _ => some "X") ⟨true, [(proof_file, "C")]⟩).result
        = .error .documentError ∧
     (main none (fun _ => some "X") ⟨true, [(proof_file, "C")]⟩).fs.files
        = [(proof_file, "C")] ∧
     (main none (fun _ => some "X") ⟨true, [(proof_file, "C")]⟩).trace = []) :=
  ⟨by decide,
   missing_document_aborts_before_any_write (fun _ => some "X") _ (by decide)⟩

lemma lookup_cons_self (f t : String) (l : List (String × String)) :
    List.lookup f ((f, t) :: l) = some t := by
  simp [List.lookup]

lemma lookup_cons_ne {k f : String} (t : String) (l : List (String × String))
    (h : k ≠ f) : List.lookup k ((f, t) :: l) = List.lookup k l := by
  simp [List.lookup, beq_eq_false_iff_ne.mpr h]

lemma lookup_append_none (l1 : List (String × String))
    {l2 : List (String × String)} {k : String}
    (h : List.lookup k (l1 ++ l2) = none) : List.lookup k l2 = none := by
  induction l1 with
  | nil => simpa using h
  | cons p l ih =>
    rcases p with ⟨a, b⟩
    rw [List.cons_append] at h
    by_cases hk : k = a
    · subst hk; rw [lookup_cons_self] at h; cases h
    · rw [lookup_cons_ne _ _ hk] at h; exact ih h

lemma lookup_append_some {l1 l2 : List (String × String)} {k c : String}
    (hc : List.lookup k l2 = some c) (hnone : ∀ q ∈ l1, List.lookup q.1 l2 = none) :
    List.lookup k (l1 ++ l2) = some c := by
  induction l1 with
  | nil => simpa using hc
  | cons p l ih =>
    rcases p with ⟨a, b⟩
    have hka : k ≠ a := by
      intro h
      subst h
      have h0 : List.lookup k l2 = none := by simpa using hnone (k, b) (by simp)
      rw [h0] at hc; cases hc
    rw [List.cons_append, lookup_cons_ne _ _ hka]
    exact ih (fun q hq => hnone q (List.mem_cons_of_mem _ hq))

/-- A request of the per-page extraction call site. -/
def page_shaped (r : ChatRequest) : Prop := ∃ img, r = page_request img

/-- A request of the main-theorem extraction call site. -/
def theorem_shaped (r : ChatRequest) : Prop := ∃ t, r = theorem_request t

/-- A request of the proof-generation call site. -/
def prove_shaped (r : ChatRequest) : Prop := ∃ t, r = prove_request t

/-- A request of the proof-validation call site. -/
def validate_shaped (r : ChatRequest) : Prop := ∃ t p, r = validate_request t p

/-- The request `r` is one that the stage owning the result file `name`
would issue when it computes. -/
def stage_compute_request (name : String) (r : ChatRequest) : Prop :=
  (name = extracted_text_file ∧ page_shaped r) ∨
  (name = main_theorem_file ∧ theorem_shaped r) ∨
  (name = proof_file ∧ prove_shaped r) ∨
  (name = validation_file ∧ validate_shaped r)

lemma string_append_ne (a b : String) (k : Nat)
    (ha : k ≤ a.data.length) (hb : k ≤ b.data.length)
    (hne : a.data.take k ≠ b.data.take k) :
    ∀ s t : String, a ++ s ≠ b ++ t := by
  intro s t h
  apply hne
  have hd : a.data ++ s.data = b.data ++ t.data := by
    simpa [String.data_append] using congrArg String.data h
  calc a.data.take k = (a.data ++ s.data).take k :=
        (List.take_append_of_le_length ha).symm
    _ = (b.data ++ t.data).take k := by rw [hd]
    _ = b.data.take k := List.take_append_of_le_length hb

lemma page_ne_theorem (img t : String) : page_request img ≠ theorem_request t :=
  fun h => Option.noConfusion (congrArg ChatRequest.imageUrl h)

lemma page_ne_prove (img t : String) : page_request img ≠ prove_request t :=
  fun h => Option.noConfusion (congrArg ChatRequest.imageUrl h)

lemma page_ne_validate (img t p : String) : page_request img ≠ validate_request t p :=
  fun h => Option.noConfusion (congrArg ChatRequest.imageUrl h)

lemma theorem_ne_prove (t u : String) : theorem_request t ≠ prove_request u := by
  intro h
  have hp : theorem_prompt_pre ++ (t ++ theorem_prompt_suf) = prove_prompt_pre ++ u := by
    simpa [theorem_request, prove_request, String.append_assoc]
      using congrArg ChatRequest.promptText h
  exact string_append_ne theorem_prompt_pre prove_prompt_pre 4
    (by decide) (by decide) (by decide) _ _ hp

lemma theorem_ne_validate (t u p : String) :
    theorem_request t ≠ validate_request u p := by
  intro h
  have hp : theorem_prompt_pre ++ (t ++ theorem_prompt_suf) =
      validate_prompt_pre ++ (u ++ (validate_prompt_mid ++ (p ++ validate_prompt_suf))) := by
    simpa [theorem_request, validate_request, String.append_assoc]
      using congrArg ChatRequest.promptText h
  exact string_append_ne theorem_prompt_pre validate_prompt_pre 4
    (by decide) (by decide) (by decide) _ _ hp

lemma prove_ne_validate (t u p : String) :
    prove_request t ≠ validate_request u p := by
  intro h
  have hp : prove_prompt_pre ++ t =
      validate_prompt_pre ++ (u ++ (validate_prompt_mid ++ (p ++ validate_prompt_suf))) := by
    simpa [prove_request, validate_request, String.append_assoc]
      using congrArg ChatRequest.promptText h
  exact string_append_ne prove_prompt_pre validate_prompt_pre 6
    (by decide) (by decide) (by decide) _ _ hp

lemma stage_compute_request_unique {f g : String} {r : ChatRequest}
    (hf : stage_compute_request f r) (hg : stage_compute_request g r) : f = g := by
  rcases hf with ⟨rfl, x, rfl⟩ | ⟨rfl, x, rfl⟩ | ⟨rfl, x, rfl⟩ | ⟨rfl, x, y, rfl⟩ <;>
    rcases hg with ⟨rfl, z, hz⟩ | ⟨rfl, z, hz⟩ | ⟨rfl, z, hz⟩ | ⟨rfl, z, w, hz⟩ <;>
      first
        | rfl
        | exact absurd hz (page_ne_theorem _ _)
        | exact absurd hz (page_ne_prove _ _)
        | exact absurd hz (page_ne_validate _ _ _)
        | exact absurd hz (theorem_ne_prove _ _)
        | exact absurd hz (theorem_ne_validate _ _ _)
        | exact absurd hz (prove_ne_validate _ _ _)
        | exact absurd hz.symm (page_ne_theorem _ _)
        | exact absurd hz.symm (page_ne_prove _ _)
        | exact absurd hz.symm (page_ne_validate _ _ _)
        | exact absurd hz.symm (theorem_ne_prove _ _)
        | exact absurd hz.symm (theorem_ne_validate _ _ _)
        | exact absurd hz.symm (prove_ne_validate _ _ _)

lemma stage_compute_request_temperature {f : String} {r : ChatRequest}
    (h : stage_compute_request f r) : r.temperature = 0 := by
  rcases h with ⟨_, x, rfl⟩ | ⟨_, x, rfl⟩ | ⟨_, x, rfl⟩ | ⟨_, x, y, rfl⟩ <;> rfl

lemma run_stage_spec (fs : FS) (f : String)
    (comp : Except PipeError String × List ChatRequest) :
    (∃ c, load_result fs f = some c ∧ run_stage fs f comp = (.ok c, [], fs)) ∨
    (load_result fs f = none ∧
      ((∃ e, comp.1 = .error e ∧ run_stage fs f comp = (.error e, comp.2, fs)) ∨
       (∃ t, comp.1 = .ok t ∧
          run_stage fs f comp = (.ok t, comp.2, save_result fs f t)))) := by
  rcases hc : load_result fs f with _ | c
  · refine .inr ⟨rfl, ?_⟩
    rcases comp with ⟨res, tr⟩
    cases res with
    | error e => exact .inl ⟨e, rfl, by simp [run_stage, hc]⟩
    | ok t => exact .inr ⟨t, rfl, by simp [run_stage, hc]⟩
  · exact .inl ⟨c, rfl, run_stage_cached hc _⟩

lemma extract_pages_trace_shaped (client : Oracle) (images : List String) :
    ∀ r ∈ (extract_pages client images).2,
      stage_compute_request extracted_text_file r := by
  induction images with
  | nil => intro r hr; simp [extract_pages] at hr
  | cons img rest ih =>
    intro r hr
    simp only [extract_pages, process_image_with_gpt4o] at hr
    cases hc : client (page_request img) with
    | none =>
      rw [hc] at hr
      simp at hr
      exact .inl ⟨rfl, img, hr⟩
    | some t =>
      rw [hc] at hr
      rcases hrest : extract_pages client rest with ⟨res, tr⟩
      rw [hrest] at hr
      have htr : r = page_request img ∨ r ∈ tr := by
        cases res <;> simpa using hr
      rcases htr with h | h
      · exact .inl ⟨rfl, img, h⟩
      · exact ih r (by rw [hrest]; exact h)

lemma extract_text_trace_shaped (pdf : Option (List String)) (client : Oracle) :
    ∀ r ∈ (extract_text_via_gpt4o pdf client).2,
      stage_compute_request extracted_text_file r := by
  cases pdf with
  | none => intro r hr; simp [extract_text_via_gpt4o] at hr
  | some images => exact extract_pages_trace_shaped client images

lemma extract_main_theorem_trace (t : String) (client : Oracle) :
    (extract_main_theorem t client).2 = [theorem_request t] := by
  unfold extract_main_theorem
  cases client (theorem_request t) <;> rfl

lemma prove_theorem_trace (t : String) (client : Oracle) :
    (prove_theorem t client).2 = [prove_request t] := by
  unfold prove_theorem
  cases client (prove_request t) <;> rfl

lemma validate_proof_trace (t p : String) (client : Oracle) :
    (validate_proof t p client).2 = [validate_request t p] := by
  unfold validate_proof
  cases client (validate_request t p) <;> rfl

lemma extract_main_theorem_trace_shaped (t : String) (client : Oracle) :
    ∀ r ∈ (extract_main_theorem t client).2,
      stage_compute_request main_theorem_file r := by
  rw [extract_main_theorem_trace]
  intro r hr
  simp at hr
  exact .inr (.inl ⟨rfl, t, hr⟩)

lemma prove_theorem_trace_shaped (t : String) (client : Oracle) :
    ∀ r ∈ (prove_theorem t client).2,
      stage_compute_request proof_file r := by
  rw [prove_theorem_trace]
  intro r hr
  simp at hr
  exact .inr (.inr (.inl ⟨rfl, t, hr⟩))

lemma validate_proof_trace_shaped (t p : String) (client : Oracle) :
    ∀ r ∈ (validate_proof t p client).2,
      stage_compute_request validation_file r := by
  rw [validate_proof_trace]
  intro r hr
  simp at hr
  exact .inr (.inr (.inr ⟨rfl, t, p, hr⟩))

/-- The run invariant, relative to the directory state `fs0` at the start of
the run: the current files extend `fs0`'s by entries whose names were absent
in `fs0`; no request issued so far belongs to a stage whose file was present
in `fs0`; and every request issued so far has temperature 0. -/
def Inv (fs0 fs : FS) (tr : List ChatRequest) : Prop :=
  (∃ new, fs.files = new ++ fs0.files ∧ ∀ q ∈ new, load_result fs0 q.1 = none) ∧
  (∀ name c, load_result fs0 name = some c →
     ∀ r ∈ tr, ¬ stage_compute_request name r) ∧
  (∀ r ∈ tr, r.temperature = 0)

lemma Inv_step {fs0 fs : FS} {tr : List ChatRequest} (hInv : Inv fs0 fs tr)
    {f : String} {comp : Except PipeError String × List ChatRequest}
    (hcomp : ∀ r ∈ comp.2, stage_compute_request f r) :
    Inv fs0 (run_stage fs f comp).2.2 (tr ++ (run_stage fs f comp).2.1) := by
  obtain ⟨⟨new, hfs, hnew⟩, htr, htemp⟩ := hInv
  have hfresh : load_result fs f = none →
      ∀ name c, load_result fs0 name = some c →
        ∀ r ∈ comp.2, ¬ stage_compute_request name r := by
    intro hn name c hc r hr hshape
    have hnf : name = f := stage_compute_request_unique hshape (hcomp r hr)
    subst hnf
    have : load_result fs name = some c := by
      show List.lookup name fs.files = some c
      rw [hfs]
      exact lookup_append_some hc hnew
    rw [this] at hn
    cases hn
  have htemp' : ∀ r ∈ comp.2, r.temperature = 0 :=
    fun r hr => stage_compute_request_temperature (hcomp r hr)
  rcases run_stage_spec fs f comp with ⟨c, hc, heq⟩ | ⟨hn, hcase⟩
  · rw [heq]
    exact ⟨⟨new, hfs, hnew⟩, by simpa using htr, by simpa using htemp⟩
  · have hmem : ∀ {fs' : FS}, (∃ m, fs'.files = m ++ fs0.files ∧
        ∀ q ∈ m, load_result fs0 q.1 = none) →
        Inv fs0 fs' (tr ++ comp.2) := by
      intro fs' hfiles
      refine ⟨hfiles, ?_, ?_⟩
      · intro name c hc r hr
        rcases List.mem_append.mp hr with h | h
        · exact htr name c hc r h
        · exact hfresh hn name c hc r h
      · intro r hr
        rcases List.mem_append.mp hr with h | h
        · exact htemp r h
        · exact htemp' r h
    rcases hcase with ⟨e, _, heq⟩ | ⟨t, _, heq⟩
    · rw [heq]
      exact hmem ⟨new, hfs, hnew⟩
    · rw [heq]
      refine hmem ⟨(f, t) :: new, ?_, ?_⟩
      · show ((f, t) :: fs.files) = ((f, t) :: new) ++ fs0.files
        rw [hfs, List.cons_append]
      · intro q hq
        rcases List.mem_cons.mp hq with h | h
        · subst h
          show List.lookup f fs0.files = none
          apply lookup_append_none new
          rw [← hfs]
          exact hn
        · exact hnew q h

lemma main_Inv (pdf : Option (List String)) (client : Oracle) (fs0 : FS) :
    Inv fs0 (main pdf client fs0).fs (main pdf client fs0).trace := by
  have h0 : Inv fs0 (ensure_dir fs0) [] :=
    ⟨⟨[], by simp [ensure_dir_files], by simp⟩, by simp, by simp⟩
  have h1 := Inv_step h0 (extract_text_trace_shaped pdf client)
  rcases hS1 : run_stage (ensure_dir fs0) extracted_text_file
      (extract_text_via_gpt4o pdf client) with ⟨res1, tr1, fs1⟩
  rw [hS1] at h1
  simp only [List.nil_append] at h1
  simp only [main]
  rw [hS1]
  cases res1 with
  | error e => exact h1
  | ok t1 =>
    dsimp only
    have h2 := Inv_step h1 (extract_main_theorem_trace_shaped t1 client)
    rcases hS2 : run_stage fs1 main_theorem_file (extract_main_theorem t1 client)
      with ⟨res2, tr2, fs2⟩
    rw [hS2] at h2
    cases res2 with
    | error e => exact h2
    | ok t2 =>
      dsimp only
      have h3 := Inv_step h2 (prove_theorem_trace_shaped t2 client)
      rcases hS3 : run_stage fs2 proof_file (prove_theorem t2 client)
        with ⟨res3, tr3, fs3⟩
      rw [hS3] at h3
      cases res3 with
      | error e => exact h3
      | ok t3 =>
        dsimp only
        have h4 := Inv_step h3 (validate_proof_trace_shaped t2 t3 client)
        rcases hS4 : run_stage fs3 validation_file (validate_proof t2 t3 client)
          with ⟨res4, tr4, fs4⟩
        rw [hS4] at h4
        cases res4 with
        | error e => exact h4
        | ok t4 => exact h4

/-- C3: for every stage and every run, if that stage's result file exists in
the output directory at the start of the run, the run neither recomputes
that stage (no request of that stage's call site is issued) nor writes to
that file (its content is unchanged afterwards); moreover every file entry
a run adds has a name that was absent at the start, so writing a stage file
happens only in the branch where it did not previously exist. -/
theorem cached_stage_never_recomputed_or_overwritten
    (pdf : Option (List String)) (client : Oracle) (fs0 : FS)
    (name c : String)
    (hname : name = extracted_text_file ∨ name = main_theorem_file ∨
             name = proof_file ∨ name = validation_file)
    (hc : load_result fs0 name = some c) :
    load_result (main pdf client fs0).fs name = some c ∧
    (∀ r ∈ (main pdf client fs0).trace, ¬ stage_compute_request name r) ∧
    (∃ new, (main pdf client fs0).fs.files = new ++ fs0.files ∧
       ∀ q ∈ new, load_result fs0 q.1 = none) := by
  obtain ⟨⟨new, hfs, hnew⟩, htr, _⟩ := main_Inv pdf client fs0
  refine ⟨?_, htr name c hc, ⟨new, hfs, hnew⟩⟩
  show List.lookup name (main pdf client fs0).fs.files = some c
  rw [hfs]
  exact lookup_append_some hc hnew

/-- Witness for C3: a directory already holding proof.txt, run with a
missing document and a failing client. -/
theorem cached_stage_never_recomputed_or_overwritten_witness :
    ((proof_file = extracted_text_file ∨ proof_file = main_theorem_file ∨
      proof_file = proof_file ∨ proof_file = validation_file) ∧
     load_result ⟨true, [(proof_file, "P")]⟩ proof_file = some "P") ∧
    (load_result (main none (fun _ => none) ⟨true, [(proof_file, "P")]⟩).fs
        proof_file = some "P" ∧
     (∀ r ∈ (main none (fun _ => none) ⟨true, [(proof_file, "P")]⟩).trace,
        ¬ stage_compute_request proof_file r) ∧
     (∃ new, (main none (fun _ => none) ⟨true, [(proof_file, "P")]⟩).fs.files
          = new ++ [(proof_file, "P")] ∧
        ∀ q ∈ new, load_result ⟨true, [(proof_file, "P")]⟩ q.1 = none)) :=
  ⟨⟨by decide, by decide⟩,
   cached_stage_never_recomputed_or_overwritten none (fun _ => none) _ proof_file "P"
     (by decide) (by decide)⟩

/-- C8: every request the program issues to the generation capability, at
any of the four call sites, has sampling temperature exactly 0. -/
theorem every_request_has_zero_temperature
    (pdf : Option (List String)) (client : Oracle) (fs0 : FS)
    (r : ChatRequest) (hr : r ∈ (main pdf client fs0).trace) :
    r.temperature = 0 :=
  (main_Inv pdf client fs0).2.2 r hr

/-- Witness for C8: the page request of the end-to-end run is in the trace
and has temperature 0. -/
theorem every_request_has_zero_temperature_witness :
    page_request "IMG1" ∈ (main (some ["IMG1"]) stub_client ⟨true, []⟩).trace ∧
    (page_request "IMG1").temperature = 0 :=
  ⟨by decide,
   every_request_has_zero_temperature (some ["IMG1"]) stub_client ⟨true, []⟩
     (page_request "IMG1") (by decide)⟩

lemma run_stage_preserves (fs : FS) (f : String)
    (comp : Except PipeError String × List ChatRequest)
    (g : String) (hg : g ≠ f) :
    load_result (run_stage fs f comp).2.2 g = load_result fs g := by
  rcases run_stage_spec fs f comp with ⟨c, _, heq⟩ | ⟨hn, hcase⟩
  · rw [heq]
  · rcases hcase with ⟨e, _, heq⟩ | ⟨t, _, heq⟩
    · rw [heq]
    · rw [heq]
      show List.lookup g ((f, t) :: fs.files) = _
      exact lookup_cons_ne _ _ hg

lemma run_stage_trace_not_cached {fs : FS} {f : String}
    (comp : Except PipeError String × List ChatRequest)
    (hn : load_result fs f = none) :
    (run_stage fs f comp).2.1 = comp.2 := by
  rcases comp with ⟨res, tr⟩
  cases res <;> simp [run_stage, hn]

lemma extract_pages_success (client : Oracle) (images : List String)
    (h : ∀ img ∈ images, (client (page_request img)).isSome) :
    extract_pages client images =
      (.ok ((images.map fun img =>
          (client (page_request img)).get! ++ "\n").foldr (· ++ ·) ""),
       images.map page_request) := by
  induction images with
  | nil => rfl
  | cons img rest ih =>
    obtain ⟨t, ht⟩ := Option.isSome_iff_exists.mp (h img (by simp))
    have hrest := ih (fun i hi => h i (by simp [hi]))
    simp only [extract_pages, process_image_with_gpt4o]
    rw [ht, hrest]
    simp [ht]

/-- C2: when the extraction stage computes for a document with at least one
page and the client answers every page request, it issues exactly one
request per page, in page order, and its output is the concatenation of the
per-page results in that order, each followed by a newline. -/
theorem extraction_calls_once_per_page_in_order
    (client : Oracle) (images : List String)
    (hN : 1 ≤ images.length)
    (h : ∀ img ∈ images, (client (page_request img)).isSome) :
    extract_text_via_gpt4o (some images) client =
      (.ok ((images.map fun img =>
          (client (page_request img)).get! ++ "\n").foldr (· ++ ·) ""),
       images.map page_request) :=
  extract_pages_success client images h

/-- Witness for C2: a three-page document and a client answering "S" to
every request. -/
theorem extraction_calls_once_per_page_in_order_witness :
    (1 ≤ (["P1", "P2", "P3"] : List String).length ∧
     ∀ img ∈ (["P1", "P2", "P3"] : List String),
       (((fun _ => some "S") : Oracle) (page_request img)).isSome) ∧
    extract_text_via_gpt4o (some ["P1", "P2", "P3"]) (fun _ => some "S") =
      (.ok "S\nS\nS\n",
       [page_request "P1", page_request "P2", page_request "P3"]) :=
  ⟨⟨by decide, by decide⟩,
   extraction_calls_once_per_page_in_order (fun _ => some "S") ["P1", "P2", "P3"]
     (by decide) (by decide)⟩

/-- C10: for a zero-page document the extraction stage makes no generation
call and yields the empty string; a run with no cached extraction writes it
as an empty extracted_text.txt, and if stage 2 then computes, the request it
issues carries the empty string as the paper body. -/
theorem zero_page_document_empty_extraction
    (client : Oracle) (fs0 : FS)
    (hx : load_result fs0 extracted_text_file = none) :
    extract_text_via_gpt4o (some []) client = (.ok "", []) ∧
    load_result (main (some []) client fs0).fs extracted_text_file = some "" ∧
    (load_result fs0 main_theorem_file = none →
      theorem_request "" ∈ (main (some []) client fs0).trace) := by
  have hx' : load_result (ensure_dir fs0) extracted_text_file = none :=
    (ensure_dir_load fs0 _).trans hx
  refine ⟨rfl, ?_⟩
  simp only [main]
  rw [run_stage_not_cached hx']
  dsimp only [extract_text_via_gpt4o, extract_pages]
  have hf1 : load_result (save_result (ensure_dir fs0) extracted_text_file "")
      extracted_text_file = some "" := lookup_cons_self _ _ _
  rcases hS2 : run_stage (save_result (ensure_dir fs0) extracted_text_file "")
      main_theorem_file ( extract_main_theorem "" client) with ⟨res2, tr2, fs2⟩
  have hp2 : load_result fs2 extracted_text_file = some "" := by
    have hpr := run_stage_preserves (save_result (ensure_dir fs0) extracted_text_file "")
      main_theorem_file ( extract_main_theorem "" client) extracted_text_file (by decide)
    rw [hS2] at hpr
    exact hpr.trans hf1
  have htr2 : load_result fs0 main_theorem_file = none →
      tr2 = [theorem_request ""] := by
    intro hm0
    have hm1 : load_result (save_result (ensure_dir fs0) extracted_text_file "")
        main_theorem_file = none := by
      show List.lookup main_theorem_file
        ((extracted_text_file, "") :: (ensure_dir fs0).files) = none
      rw [lookup_cons_ne _ _ (by decide)]
      exact (ensure_dir_load fs0 _).trans hm0
    have htr := run_stage_trace_not_cached ( extract_main_theorem "" client) hm1
    rw [hS2] at htr
    rw [extract_main_theorem_trace "" client] at htr
    exact htr
  cases res2 with
  | error e =>
    refine ⟨hp2, fun hm0 => ?_⟩
    rw [htr2 hm0]
    simp
  | ok t2 =>
    dsimp only
    rcases hS3 : run_stage fs2 proof_file (prove_theorem t2 client)
      with ⟨res3, tr3, fs3⟩
    have hp3 : load_result fs3 extracted_text_file = some "" := by
      have hpr := run_stage_preserves fs2 proof_file (prove_theorem t2 client)
        extracted_text_file (by decide)
      rw [hS3] at hpr
      exact hpr.trans hp2
    cases res3 with
    | error e =>
      refine ⟨hp3, fun hm0 => ?_⟩
      rw [htr2 hm0]
      simp
    | ok t3 =>
      dsimp only
      rcases hS4 : run_stage fs3 validation_file (validate_proof t2 t3 client)
        with ⟨res4, tr4, fs4⟩
      have hp4 : load_result fs4 extracted_text_file = some "" := by
        have hpr := run_stage_preserves fs3 validation_file
          (validate_proof t2 t3 client) extracted_text_file (by decide)
        rw [hS4] at hpr
        exact hpr.trans hp3
      cases res4 with
      | error e =>
        refine ⟨hp4, fun hm0 => ?_⟩
        rw [htr2 hm0]
        simp
      | ok t4 =>
        refine ⟨hp4, fun hm0 => ?_⟩
        rw [htr2 hm0]
        simp

/-- Witness for C10: a zero-page run against an empty directory with a
client that fails on every request (stage 2 still issues its request). -/
theorem zero_page_document_empty_extraction_witness :
    (load_result ⟨true, []⟩ extracted_text_file = none) ∧
    (extract_text_via_gpt4o (some []) (fun _ => none) = (.ok "", []) ∧
     load_result (main (some []) (fun _ => none) ⟨true, []⟩).fs
        extracted_text_file = some "" ∧
     (load_result ⟨true, []⟩ main_theorem_file = none →
        theorem_request "" ∈ (main (some []) (fun _ => none) ⟨true, []⟩).trace)) :=
  ⟨by decide,
   zero_page_document_empty_extraction (fun _ => none) ⟨true, []⟩ (by decide)⟩

/-- C5: when stage 2 computes it receives exactly the stage-1 result text
as the paper body of its request, and when stage 4 computes it receives
exactly the stage-2 result and the stage-3 result as the theorem and proof
of its request (the requests with exactly those inputs are issued). -/
theorem stage_inputs_are_prior_stage_outputs
    (pdf : Option (List String)) (client : Oracle) (fs0 : FS)
    (t1 t2 t3 : String) (tr1 tr2 tr3 : List ChatRequest) (fs1 fs2 fs3 : FS) :
    (run_stage (ensure_dir fs0) extracted_text_file
        (extract_text_via_gpt4o pdf client) = (.ok t1, tr1, fs1) →
      load_result fs1 main_theorem_file = none →
      theorem_request t1 ∈ (main pdf client fs0).trace) ∧
    (run_stage (ensure_dir fs0) extracted_text_file
        (extract_text_via_gpt4o pdf client) = (.ok t1, tr1, fs1) →
      run_stage fs1 main_theorem_file (extract_main_theorem t1 client)
          = (.ok t2, tr2, fs2) →
      run_stage fs2 proof_file (prove_theorem t2 client) = (.ok t3, tr3, fs3) →
      load_result fs3 validation_file = none →
      validate_request t2 t3 ∈ (main pdf client fs0).trace) := by
  constructor
  · intro h1 hm
    simp only [main]
    rw [h1]
    dsimp only
    rcases hS2 : run_stage fs1 main_theorem_file (extract_main_theorem t1 client)
      with ⟨res2, tr2', fs2'⟩
    have htr2 : tr2' = [theorem_request t1] := by
      have htr := run_stage_trace_not_cached (extract_main_theorem t1 client) hm
      rw [hS2] at htr
      rw [extract_main_theorem_trace t1 client] at htr
      exact htr
    subst htr2
    cases res2 with
    | error e => simp
    | ok u2 =>
      dsimp only
      rcases hS3 : run_stage fs2' proof_file (prove_theorem u2 client)
        with ⟨res3, tr3', fs3'⟩
      cases res3 with
      | error e => simp
      | ok u3 =>
        dsimp only
        rcases hS4 : run_stage fs3' validation_file (validate_proof u2 u3 client)
          with ⟨res4, tr4', fs4'⟩
        cases res4 <;> simp
  · intro h1 h2 h3 hv
    simp only [main]
    rw [h1]
    dsimp only
    rw [h2]
    dsimp only
    rw [h3]
    dsimp only
    rcases hS4 : run_stage fs3 validation_file (validate_proof t2 t3 client)
      with ⟨res4, tr4', fs4'⟩
    have htr4 : tr4' = [validate_request t2 t3] := by
      have htr := run_stage_trace_not_cached (validate_proof t2 t3 client) hv
      rw [hS4] at htr
      rw [validate_proof_trace t2 t3 client] at htr
      exact htr
    subst htr4
    cases res4 <;> simp

/-- Witness for C5: the end-to-end one-page run with the fixed-reply stub,
where all four stages compute. -/
theorem stage_inputs_are_prior_stage_outputs_witness :
    (run_stage (ensure_dir ⟨true, []⟩) extracted_text_file
        (extract_text_via_gpt4o (some ["IMG1"]) stub_client) =
          (.ok "T1\n", [page_request "IMG1"],
           ⟨true, [(extracted_text_file, "T1\n")]⟩) ∧
     load_result (⟨true, [(extracted_text_file, "T1\n")]⟩ : FS)
        main_theorem_file = none ∧
     run_stage ⟨true, [(extracted_text_file, "T1\n")]⟩ main_theorem_file
        ( extract_main_theorem "T1\n" stub_client) =
          (.ok "MAIN", [theorem_request "T1\n"],
           ⟨true, [(main_theorem_file, "MAIN"), (extracted_text_file, "T1\n")]⟩) ∧
     run_stage ⟨true, [(main_theorem_file, "MAIN"), (extracted_text_file, "T1\n")]⟩
        proof_file ( prove_theorem "MAIN" stub_client) =
          (.ok "PROOF", [prove_request "MAIN"],
           ⟨true, [(proof_file, "PROOF"), (main_theorem_file, "MAIN"),
                   (extracted_text_file, "T1\n")]⟩) ∧
     load_result (⟨true, [(proof_file, "PROOF"), (main_theorem_file, "MAIN"),
                   (extracted_text_file, "T1\n")]⟩ : FS) validation_file = none) ∧
    (theorem_request "T1\n" ∈
        (main (some ["IMG1"]) stub_client ⟨true, []⟩).trace ∧
     validate_request "MAIN" "PROOF" ∈
        (main (some ["IMG1"]) stub_client ⟨true, []⟩).trace) :=
  ⟨⟨by decide, by decide, by decide, by decide, by decide⟩,
   (stage_inputs_are_prior_stage_outputs (some ["IMG1"]) stub_client ⟨true, []⟩
      "T1\n" "MAIN" "PROOF" [page_request "IMG1"] [theorem_request "T1\n"]
      [prove_request "MAIN"] ⟨true, [(extracted_text_file, "T1\n")]⟩
      ⟨true, [(main_theorem_file, "MAIN"), (extracted_text_file, "T1\n")]⟩
      ⟨true, [(proof_file, "PROOF"), (main_theorem_file, "MAIN"),
              (extracted_text_file, "T1\n")]⟩).1 (by decide) (by decide),
   (stage_inputs_are_prior_stage_outputs (some ["IMG1"]) stub_client ⟨true, []⟩
      "T1\n" "MAIN" "PROOF" [page_request "IMG1"] [theorem_request "T1\n"]
      [prove_request "MAIN"] ⟨true, [(extracted_text_file, "T1\n")]⟩
      ⟨true, [(main_theorem_file, "MAIN"), (extracted_text_file, "T1\n")]⟩
      ⟨true, [(proof_file, "PROOF"), (main_theorem_file, "MAIN"),
              (extracted_text_file, "T1\n")]⟩).2
     (by decide) (by decide) (by decide) (by decide)⟩

lemma run_stage_ok_self {fs : FS} {f : String}
    {comp : Except PipeError String × List ChatRequest}
    {t : String} {tr : List ChatRequest} {fs' : FS}
    (h : run_stage fs f comp = (.ok t, tr, fs')) :
    load_result fs' f = some t ∧ ∀ c, load_result fs f = some c → c = t := by
  rcases run_stage_spec fs f comp with ⟨c, hc, heq⟩ | ⟨hn, hcase⟩
  · rw [heq] at h
    simp only [Prod.mk.injEq] at h
    obtain ⟨hres, -, hfs⟩ := h
    injection hres with h'
    subst h'
    subst hfs
    refine ⟨hc, fun c' hc' => ?_⟩
    rw [hc'] at hc
    injection hc
  · rcases hcase with ⟨e, _, heq⟩ | ⟨u, _, heq⟩
    · rw [heq] at h
      simp only [Prod.mk.injEq] at h
      exact absurd h.1 (by simp)
    · rw [heq] at h
      simp only [Prod.mk.injEq] at h
      obtain ⟨hres, -, hfs⟩ := h
      injection hres with h'
      subst h'
      subst hfs
      constructor
      · exact lookup_cons_self _ _ _
      · intro c hc
        rw [hc] at hn
        cases hn

/-- The client of the stage-3 failure scenario: answers "T1" to any request
carrying an image, "MAIN" to the stage-2 request on "T1\n", and fails on
everything else (in particular on the stage-3 request). -/
def c4_client : Oracle := fun r =>
  if r.imageUrl.isSome then some "T1"
  else if r = theorem_request "T1\n" then some "MAIN"
  else none

/-- Counterexample to C4 as stated: a directory that (through external
tampering) already holds validation.txt but not proof.txt.  Stages 1 and 2
complete, the stage-3 generation call fails and the run aborts — yet
validation.txt still exists afterwards, so "neither proof.txt nor
validation.txt exists" fails. -/
theorem stage3_failure_counterexample :
    main (some ["IMG1"]) c4_client ⟨true, [(validation_file, "STALE")]⟩ =
      ⟨⟨true, [(main_theorem_file, "MAIN"), (extracted_text_file, "T1\n"),
               (validation_file, "STALE")]⟩,
       [page_request "IMG1", theorem_request "T1\n", prove_request "MAIN"],
       .error .serviceError⟩ ∧
    load_result (main (some ["IMG1"]) c4_client
        ⟨true, [(validation_file, "STALE")]⟩).fs validation_file
      = some "STALE" := by
  exact ⟨by decide, by decide⟩

/-- C4 (amended): for every run in which stages 1 and 2 complete, stage 3
is not cached and its generation call fails, and validation.txt was not
already present at the start of the run: the run terminates with the error,
extracted_text.txt and main_theorem.txt exist with their contents unchanged
from any pre-run content, and neither proof.txt nor validation.txt
exists. -/
theorem stage3_failure_preserves_earlier_stages
    (pdf : Option (List String)) (client : Oracle) (fs0 : FS)
    (t1 t2 : String) (tr1 tr2 : List ChatRequest) (fs1 fs2 : FS)
    (h1 : run_stage (ensure_dir fs0) extracted_text_file
        (extract_text_via_gpt4o pdf client) = (.ok t1, tr1, fs1))
    (h2 : run_stage fs1 main_theorem_file (extract_main_theorem t1 client)
        = (.ok t2, tr2, fs2))
    (hp : load_result fs2 proof_file = none)
    (hfail : client (prove_request t2) = none)
    (hv : load_result fs0 validation_file = none) :
    (main pdf client fs0).result = .error .serviceError ∧
    load_result (main pdf client fs0).fs extracted_text_file = some t1 ∧
    load_result (main pdf client fs0).fs main_theorem_file = some t2 ∧
    load_result (main pdf client fs0).fs proof_file = none ∧
    load_result (main pdf client fs0).fs validation_file = none ∧
    (∀ c, load_result fs0 extracted_text_file = some c → c = t1) ∧
    (∀ c, load_result fs0 main_theorem_file = some c → c = t2) := by
  have hc3 : prove_theorem t2 client = (.error .serviceError, [prove_request t2]) := by
    simp [prove_theorem, hfail]
  have hmain : main pdf client fs0 =
      ⟨fs2, tr1 ++ tr2 ++ [prove_request t2], .error .serviceError⟩ := by
    simp only [main]
    rw [h1]
    dsimp only
    rw [h2]
    dsimp only
    rw [run_stage_not_cached hp, hc3]
  rw [hmain]
  have hs1 := run_stage_ok_self h1
  have hs2 := run_stage_ok_self h2
  have hpr1 : load_result fs2 extracted_text_file = load_result fs1 extracted_text_file := by
    have hpr := run_stage_preserves fs1 main_theorem_file
      (extract_main_theorem t1 client) extracted_text_file (by decide)
    rw [h2] at hpr
    exact hpr
  have hpr2 : load_result fs1 validation_file = load_result fs0 validation_file := by
    have hpr := run_stage_preserves (ensure_dir fs0) extracted_text_file
      (extract_text_via_gpt4o pdf client) validation_file (by decide)
    rw [h1] at hpr
    exact hpr.trans (ensure_dir_load fs0 _)
  have hpr3 : load_result fs2 validation_file = load_result fs1 validation_file := by
    have hpr := run_stage_preserves fs1 main_theorem_file
      (extract_main_theorem t1 client) validation_file (by decide)
    rw [h2] at hpr
    exact hpr
  have hpr4 : load_result fs1 main_theorem_file = load_result fs0 main_theorem_file := by
    have hpr := run_stage_preserves (ensure_dir fs0) extracted_text_file
      (extract_text_via_gpt4o pdf client) main_theorem_file (by decide)
    rw [h1] at hpr
    exact hpr.trans (ensure_dir_load fs0 _)
  refine ⟨rfl, ?_, hs2.1, hp, ?_, ?_, ?_⟩
  · rw [hpr1]
    exact hs1.1
  · rw [hpr3, hpr2]
    exact hv
  · intro c hc
    exact hs1.2 c ((ensure_dir_load fs0 _).trans hc)
  · intro c hc
    exact hs2.2 c (hpr4.trans hc)

/-- Witness for the amended C4: the stage-3 failure scenario against an
initially empty directory. -/
theorem stage3_failure_preserves_earlier_stages_witness :
    (run_stage (ensure_dir ⟨true, []⟩) extracted_text_file
        (extract_text_via_gpt4o (some ["IMG1"]) c4_client) =
          (.ok "T1\n", [page_request "IMG1"],
           ⟨true, [(extracted_text_file, "T1\n")]⟩) ∧
     run_stage ⟨true, [(extracted_text_file, "T1\n")]⟩ main_theorem_file
        ( extract_main_theorem "T1\n" c4_client) =
          (.ok "MAIN", [theorem_request "T1\n"],
           ⟨true, [(main_theorem_file, "MAIN"), (extracted_text_file, "T1\n")]⟩) ∧
     load_result (⟨true, [(main_theorem_file, "MAIN"),
        (extracted_text_file, "T1\n")]⟩ : FS) proof_file = none ∧
     c4_client (prove_request "MAIN") = none ∧
     load_result (⟨true, []⟩ : FS) validation_file = none) ∧
    ((main (some ["IMG1"]) c4_client ⟨true, []⟩).result = .error .serviceError ∧
     load_result (main (some ["IMG1"]) c4_client ⟨true, []⟩).fs
        extracted_text_file = some "T1\n" ∧
     load_result (main (some ["IMG1"]) c4_client ⟨true, []⟩).fs
        main_theorem_file = some "MAIN" ∧
     load_result (main (some ["IMG1"]) c4_client ⟨true, []⟩).fs
        proof_file = none ∧
     load_result (main (some ["IMG1"]) c4_client ⟨true, []⟩).fs
        validation_file = none ∧
     (∀ c, load_result (⟨true, []⟩ : FS) extracted_text_file = some c → c = "T1\n") ∧
     (∀ c, load_result (⟨true, []⟩ : FS) main_theorem_file = some c → c = "MAIN")) :=
  ⟨⟨by decide, by decide, by decide, by decide, by decide⟩,
   stage3_failure_preserves_earlier_stages (some ["IMG1"]) c4_client ⟨true, []⟩
     "T1\n" "MAIN" [page_request "IMG1"] [theorem_request "T1\n"]
     ⟨true, [(extracted_text_file, "T1\n")]⟩
     ⟨true, [(main_theorem_file, "MAIN"), (extracted_text_file, "T1\n")]⟩
     (by decide) (by decide) (by decide) (by decide) (by decide)⟩

end Prototype
